import Mathlib

/-!
Verification of the Hippo node-graph editor core.

The data model is translated from `src/graph/node.rs` and `src/graph/graph.rs`;
the interaction logic is translated from `src/graph/editor.rs`
(`NodeWidget::show` and `NodeWidget::draw_port`). Arena keys (`slotmap`
generational keys) are modelled as natural numbers handed out by a counter;
slot maps and secondary maps are modelled as association lists whose `insert`
replaces an existing key. Graph operations that the spec describes but that
are not present in `src/` (`add_input_slot`, `add_output_slot`, `connect`,
`disconnect`, `remove_node` — the `Graph` struct declares the storage for them
but only `add_node` is implemented) are modelled from the spec and marked as
such in their doc comments.
-/

set_option autoImplicit false

namespace Hippo

/-- `slotmap::new_key_type! NodeId` — a generational arena key, modelled as ℕ. -/
abbrev NodeId := Nat

/-- `slotmap::new_key_type! SlotId` — a single key space shared by input and
output slots, modelled as ℕ. -/
abbrev SlotId := Nat

/-- The declared data type of a slot. Opaque to the core except for equality
checks, so modelled as ℕ. -/
abbrev DataType := Nat

/-- The inline constant value of an input slot. Opaque to the core, modelled as ℕ. -/
abbrev ValueType := Nat

/-- Input-slot kind flag (used by `NodeWidget::show` via `kind()`):
`ConnectionOnly | ConstantOnly | ConnectionOrConstant`. -/
inductive InputParamKind where
  | connectionOnly
  | constantOnly
  | connectionOrConstant
  deriving DecidableEq, Repr

/-- `Node<T>` from `src/graph/node.rs`: id, label, ordered `(name, SlotId)`
lists for inputs and outputs, and an opaque payload. -/
structure Node (α : Type) where
  id : NodeId
  label : String
  inputs : List (String × SlotId)
  outputs : List (String × SlotId)
  data : α
  deriving DecidableEq

/-- `Input<DataType, ValueType>` from `src/graph/node.rs` (`id`, `typ`,
`value`, `node`), extended with the `kind` flag that `editor.rs` reads via
`kind()` and the spec attributes to input slots. -/
structure InputParam where
  id : SlotId
  typ : DataType
  value : ValueType
  node : NodeId
  kind : InputParamKind
  deriving DecidableEq

/-- `Output<DataType>` from `src/graph/node.rs`: `id`, `node`, `typ`. -/
structure OutputParam where
  id : SlotId
  node : NodeId
  typ : DataType
  deriving DecidableEq

/-- First-match lookup in an association list (semantics of slot-map lookup). -/
def lookupA {β : Type} (l : List (Nat × β)) (k : Nat) : Option β :=
  match l with
  | [] => none
  | (k', v) :: rest => if k = k' then some v else lookupA rest k

/-- Map insertion: replace the value at an existing key, else append.
This is the semantics of `SlotMap::insert` / `SecondaryMap::insert`. -/
def insertReplace {β : Type} (k : Nat) (v : β) : List (Nat × β) → List (Nat × β)
  | [] => [(k, v)]
  | (k', v') :: rest =>
    if k = k' then (k, v) :: rest else (k', v') :: insertReplace k v rest

/-- Map removal: drop every entry with the given key
(the semantics of `SecondaryMap::remove` on a well-formed map). -/
def removeKey {β : Type} (k : Nat) (l : List (Nat × β)) : List (Nat × β) :=
  l.filter (fun p => decide (p.1 ≠ k))

/-- `Graph<NodeData>` from `src/graph/graph.rs`: the node arena and the
connection table `SecondaryMap<InputId, OutputId>` (keyed by the input slot).
The `inputs`/`outputs` slot storage is declared in the source only as a
commented-out pair of slot maps; it is modelled here from the spec's data
model (§3). `nextNode`/`nextSlot` model the arenas' fresh-key generation. -/
structure Graph (α : Type) where
  nodes : List (NodeId × Node α)
  inputs : List (SlotId × InputParam)
  outputs : List (SlotId × OutputParam)
  connections : List (SlotId × SlotId)
  nextNode : Nat
  nextSlot : Nat
  deriving DecidableEq

/-- `Graph::new` — empty graph. -/
def Graph.new {α : Type} : Graph α :=
  ⟨[], [], [], [], 0, 0⟩

/-- `Graph::add_node` from `src/graph/graph.rs`: insert a node with the fresh
key, empty slot lists, and the given label and payload; return the key. -/
def Graph.addNode {α : Type} (g : Graph α) (label : String) (data : α) :
    NodeId × Graph α :=
  let nid := g.nextNode
  (nid,
    { g with
      nodes := insertReplace nid ⟨nid, label, [], [], data⟩ g.nodes
      nextNode := g.nextNode + 1 })

/-- Modelled from the spec: `add_input_slot(node, name, type, kind, default_value)
-> SlotId` (absent from `src/`; §4.1) — append `(name, id)` to the node's
ordered input list and record the `Input` slot with a globally fresh key.
An unresolvable `NodeId` is a host programming error (§7); modelled as a no-op. -/
def Graph.addInputSlot {α : Type} (g : Graph α) (node : NodeId) (name : String)
    (typ : DataType) (kind : InputParamKind) (value : ValueType) :
    SlotId × Graph α :=
  match lookupA g.nodes node with
  | none => (g.nextSlot, g)
  | some nd =>
    let sid := g.nextSlot
    (sid,
      { g with
        nodes := insertReplace node { nd with inputs := nd.inputs ++ [(name, sid)] } g.nodes
        inputs := insertReplace sid ⟨sid, typ, value, node, kind⟩ g.inputs
        nextSlot := g.nextSlot + 1 })

/-- Modelled from the spec: `add_output_slot(node, name, type) -> SlotId`
(absent from `src/`; §4.1) — append to the node's ordered output list and
record the `Output` slot with a globally fresh key. -/
def Graph.addOutputSlot {α : Type} (g : Graph α) (node : NodeId) (name : String)
    (typ : DataType) : SlotId × Graph α :=
  match lookupA g.nodes node with
  | none => (g.nextSlot, g)
  | some nd =>
    let sid := g.nextSlot
    (sid,
      { g with
        nodes := insertReplace node { nd with outputs := nd.outputs ++ [(name, sid)] } g.nodes
        outputs := insertReplace sid ⟨sid, node, typ⟩ g.outputs
        nextSlot := g.nextSlot + 1 })

/-- `graph.connection(input)` as called by `editor.rs` (spec: `connection_of`):
the output slot the given input is wired to, if any. A `SecondaryMap` lookup. -/
def Graph.connection {α : Type} (g : Graph α) (input : SlotId) : Option SlotId :=
  lookupA g.connections input

/-- `graph.any_param_type(slot)` as called by `editor.rs` (spec: `slot_type`):
the declared data type of a slot in the single key space, input side first. -/
def Graph.anyParamType {α : Type} (g : Graph α) (s : SlotId) : Option DataType :=
  match lookupA g.inputs s with
  | some ip => some ip.typ
  | none =>
    match lookupA g.outputs s with
    | some op => some op.typ
    | none => none

/-- Whether a slot key resolves at all (in either role). -/
def Graph.resolves {α : Type} (g : Graph α) (s : SlotId) : Bool :=
  (lookupA g.inputs s).isSome || (lookupA g.outputs s).isSome

/-- The node owning a slot, looked up in the single key space, input side first. -/
def Graph.slotNode {α : Type} (g : Graph α) (s : SlotId) : Option NodeId :=
  match lookupA g.inputs s with
  | some ip => some ip.node
  | none =>
    match lookupA g.outputs s with
    | some op => some op.node
    | none => none

/-- The error taxonomy of `connect` (§4.1). -/
inductive ConnectError where
  | invalidEndpoint
  | typeMismatch
  | selfLoop
  | directionError
  deriving DecidableEq, Repr

/-- Modelled from the spec: `connect(output, input)` (absent from `src/`; §4.1)
— fails with `InvalidEndpoint` if either key does not resolve, `TypeMismatch`
if declared types differ, `SelfLoop` if both slots belong to the same node,
`DirectionError` if the two supplied keys are not one-output-one-input; on
success overwrites any prior connection on `input` in the connection table. -/
def Graph.connect {α : Type} (g : Graph α) (output input : SlotId) :
    Except ConnectError (Graph α) :=
  if ¬(g.resolves output = true ∧ g.resolves input = true) then
    Except.error ConnectError.invalidEndpoint
  else if g.anyParamType output ≠ g.anyParamType input then
    Except.error ConnectError.typeMismatch
  else if g.slotNode output = g.slotNode input then
    Except.error ConnectError.selfLoop
  else
    match lookupA g.outputs output, lookupA g.inputs input with
    | some _, some _ =>
      Except.ok { g with connections := insertReplace input output g.connections }
    | _, _ => Except.error ConnectError.directionError

/-- Modelled from the spec: `disconnect(input)` (absent from `src/`; §4.1) —
removes the mapping for `input` if present; no-op otherwise. -/
def Graph.disconnect {α : Type} (g : Graph α) (input : SlotId) : Graph α :=
  { g with connections := removeKey input g.connections }

/-- Modelled from the spec: `remove_node(node)` (absent from `src/`; §4.1) —
removes the node record and every slot it owns, and every connection
referencing any of those slots (cascade, on both endpoints); silently a no-op
if the node does not exist. -/
def Graph.removeNode {α : Type} (g : Graph α) (n : NodeId) : Graph α :=
  if (lookupA g.nodes n).isSome then
    { g with
      nodes := removeKey n g.nodes
      inputs := g.inputs.filter (fun p => decide (p.2.node ≠ n))
      outputs := g.outputs.filter (fun p => decide (p.2.node ≠ n))
      connections := g.connections.filter (fun c =>
        decide ((lookupA g.inputs c.1).map InputParam.node ≠ some n) &&
        decide ((lookupA g.outputs c.2).map OutputParam.node ≠ some n)) }
  else g

/-! ## Graph operation sequences (for the connection-table invariant) -/

/-- One graph operation, as enumerated by the spec (§4.1 / §8). -/
inductive GraphOp where
  | addNode (label : String)
  | addInputSlot (node : NodeId) (name : String) (typ : DataType)
      (kind : InputParamKind) (value : ValueType)
  | addOutputSlot (node : NodeId) (name : String) (typ : DataType)
  | connect (output input : SlotId)
  | disconnect (input : SlotId)
  | removeNode (node : NodeId)
  deriving DecidableEq

/-- Apply one operation; a declined `connect` leaves the graph unchanged. -/
def applyOp (g : Graph Unit) (op : GraphOp) : Graph Unit :=
  match op with
  | GraphOp.addNode label => (g.addNode label ()).2
  | GraphOp.addInputSlot node name typ kind value =>
      (g.addInputSlot node name typ kind value).2
  | GraphOp.addOutputSlot node name typ => (g.addOutputSlot node name typ).2
  | GraphOp.connect output input =>
      match g.connect output input with
      | Except.ok g' => g'
      | Except.error _ => g
  | GraphOp.disconnect input => g.disconnect input
  | GraphOp.removeNode node => g.removeNode node

/-- Apply a sequence of operations, left to right. -/
def applyOps (g : Graph Unit) (ops : List GraphOp) : Graph Unit :=
  ops.foldl applyOp g

/-! ## The editor (`src/graph/editor.rs`) -/

/-- `NodeResponse` from `editor.rs`: events a node emits to the parent graph
when drawn. Struct variants keep the source's field order
(`ConnectEventEnded { output, input }`, `DisconnectEvent { output, input }`,
`MoveNode { node, drag_delta }`). The `User` payload is opaque, modelled as ℕ. -/
inductive NodeResponse where
  | connectEventStarted (node : NodeId) (slot : SlotId)
  | connectEventEnded (output : SlotId) (input : SlotId)
  | createdNode (node : NodeId)
  | selectNode (node : NodeId)
  | deleteNodeUi (node : NodeId)
  | deleteNodeFull (node_id : NodeId)
  | disconnectEvent (output : SlotId) (input : SlotId)
  | raiseNode (node : NodeId)
  | moveNode (node : NodeId) (drag_delta : Int × Int)
  | user (payload : Nat)
  deriving DecidableEq

/-- Is this response a `ConnectEventStarted`? -/
def NodeResponse.isConnectStarted : NodeResponse → Bool
  | NodeResponse.connectEventStarted _ _ => true
  | _ => false

/-- Is this response a `DisconnectEvent`? -/
def NodeResponse.isDisconnect : NodeResponse → Bool
  | NodeResponse.disconnectEvent _ _ => true
  | _ => false

/-- Is this response a `ConnectEventEnded`? -/
def NodeResponse.isConnectEnded : NodeResponse → Bool
  | NodeResponse.connectEventEnded _ _ => true
  | _ => false

/-- `NodeWidget::draw_port` (editor.rs lines 448-527), the port interaction
logic. Geometry and raw input are passed in as booleans, exactly the queries
the source makes: `closeEnough` is
`port_rect.center().distance(pointer_pos) < DISTANCE_TO_CONNECT`,
`dragStartedRaw` is whether the pointer started a drag on the port rect (what
`resp.drag_started()` would report under `Sense::click_and_drag`), and
`anyReleased` is `ui.input(|i| i.pointer.any_released())`. Because the port is
allocated with `Sense::hover()` whenever `ongoing_drag.is_some()` (lines
471-475), and a hover sense never reports `drag_started`, the effective
drag-start flag is `ongoing_drag.isNone && dragStartedRaw`. The resolution
`match (param_id, origin_param)` at lines 516-521 has an irrefutable first
arm, so it always binds `input := param_id` and `output := origin_param`.
A `none` result models a Rust panic (`unwrap` / `expect` on a missing slot
or connection). -/
def drawPort {α : Type} (graph : Graph α) (node_id : NodeId) (param_id : SlotId)
    (ongoing_drag : Option (NodeId × SlotId)) (is_connected_input : Bool)
    (closeEnough dragStartedRaw anyReleased : Bool) :
    Option (List NodeResponse) := do
  let port_type ← graph.anyParamType param_id
  let dragStarted := ongoing_drag.isNone && dragStartedRaw
  let r1 ←
    if dragStarted then
      if is_connected_input then do
        let corresp_output ← graph.connection param_id
        pure [NodeResponse.disconnectEvent corresp_output param_id]
      else
        pure [NodeResponse.connectEventStarted node_id param_id]
    else
      pure ([] : List NodeResponse)
  let r2 ←
    match ongoing_drag with
    | some (origin_node, origin_param) =>
      if origin_node ≠ node_id then do
        let origin_type ← graph.anyParamType origin_param
        if origin_type = port_type ∧ closeEnough = true ∧ anyReleased = true then
          pure [NodeResponse.connectEventEnded origin_param param_id]
        else
          pure ([] : List NodeResponse)
      else
        pure ([] : List NodeResponse)
    | none => pure ([] : List NodeResponse)
  pure (r1 ++ r2)

/-- The input-port call site in `NodeWidget::show` (editor.rs lines 266-292):
`is_connected_input` is `self.graph.connection(*param).is_some()`. -/
def drawInputPort {α : Type} (graph : Graph α) (node_id : NodeId) (param : SlotId)
    (ongoing_drag : Option (NodeId × SlotId))
    (closeEnough dragStartedRaw anyReleased : Bool) : Option (List NodeResponse) :=
  drawPort graph node_id param ongoing_drag (graph.connection param).isSome
    closeEnough dragStartedRaw anyReleased

/-- The output-port call site in `NodeWidget::show` (editor.rs lines 294-313):
`is_connected_input` is `false`, for every output port. -/
def drawOutputPort {α : Type} (graph : Graph α) (node_id : NodeId) (param : SlotId)
    (ongoing_drag : Option (NodeId × SlotId))
    (closeEnough dragStartedRaw anyReleased : Bool) : Option (List NodeResponse) :=
  drawPort graph node_id param ongoing_drag false
    closeEnough dragStartedRaw anyReleased

/-- `drag_delta.length_sq()` with the delta as an integer vector. -/
def lengthSq (d : Int × Int) : Int :=
  d.1 * d.1 + d.2 * d.2

/-- The interaction tail of `NodeWidget::show` (editor.rs lines 387-408) up to
but not including the selection fallback: starting from the responses
accumulated by the node contents and ports, push `DeleteNodeUi` when the close
button of a deletable node was clicked, then `MoveNode` + `RaiseNode` when the
window drag delta is nonzero. -/
def preClickResponses (node_id : NodeId) (content : List NodeResponse)
    (canDelete closeClicked : Bool) (dragDelta : Int × Int) : List NodeResponse :=
  let r := content
  let r :=
    if canDelete && closeClicked then r ++ [NodeResponse.deleteNodeUi node_id]
    else r
  if lengthSq dragDelta > 0 then
    r ++ [NodeResponse.moveNode node_id dragDelta, NodeResponse.raiseNode node_id]
  else r

/-- The interaction tail of `NodeWidget::show` (editor.rs lines 387-419)
including the selection fallback (lines 410-417): when the accumulated
response list is empty and the window was clicked with the primary button,
push `SelectNode` then `RaiseNode`. -/
def showInteraction (node_id : NodeId) (content : List NodeResponse)
    (canDelete closeClicked : Bool) (dragDelta : Int × Int)
    (clickedPrimary : Bool) : List NodeResponse :=
  let r := preClickResponses node_id content canDelete closeClicked dragDelta
  if r.isEmpty && clickedPrimary then
    r ++ [NodeResponse.selectNode node_id, NodeResponse.raiseNode node_id]
  else r

/-- `GraphEditor` from `editor.rs`: the graph plus the per-surface session
state. Screen points are modelled as integer pairs. -/
structure GraphEditor where
  graph : Graph Unit
  node_order : List NodeId
  connection_in_progress : Option (NodeId × SlotId)
  selected_nodes : List NodeId
  ongoing_box_selection : Option (Int × Int)
  node_positions : List (NodeId × (Int × Int))
  deriving DecidableEq

/-- Modelled from the spec: the Editor Controller's application of
connection-related responses to the session and graph (the frame resolution
loop is not in `src/`; §4.2, §6): `ConnectEventStarted` records the drag
origin in `connection_in_progress`; `ConnectEventEnded { output, input }`
performs `Graph.connect`, a declined connect leaving the graph unchanged;
`DisconnectEvent` performs `Graph.disconnect`. Other responses touch neither
the graph nor the drag state. -/
def GraphEditor.applyResponse (e : GraphEditor) (r : NodeResponse) : GraphEditor :=
  match r with
  | NodeResponse.connectEventStarted n s =>
      { e with connection_in_progress := some (n, s) }
  | NodeResponse.connectEventEnded o i =>
      match e.graph.connect o i with
      | Except.ok g' => { e with graph := g' }
      | Except.error _ => e
  | NodeResponse.disconnectEvent _ i => { e with graph := e.graph.disconnect i }
  | _ => e

/-- Apply a frame's response list in order. -/
def GraphEditor.applyResponses (e : GraphEditor) (rs : List NodeResponse) :
    GraphEditor :=
  rs.foldl GraphEditor.applyResponse e

/-- Modelled from the spec: when the pointer button is released anywhere, a
pending connection-drag resolves and `connection_in_progress` returns to
`None` (§4.2, §6 — the frame resolution loop is not in `src/`). -/
def GraphEditor.frameEndRelease (e : GraphEditor) (anyReleased : Bool) :
    GraphEditor :=
  if anyReleased then { e with connection_in_progress := none } else e

/-! ## Concrete example graphs (used by the witnesses) -/

/-- A three-node example graph: node `0` (label `A`) with output slot `0`
(type `5`) and input slot `3` (type `5`); node `1` (label `B`) with input
slots `1` and `2` (type `5`) and output slot `4` (type `7`); node `2` (label
`C`) with output slot `5` (type `5`). No connections yet. -/
def gBase : Graph Unit :=
  let g : Graph Unit := Graph.new
  let g := (g.addNode ("A") ()).2
  let g := (g.addNode ("B") ()).2
  let g := (g.addOutputSlot 0 ("out") 5).2
  let g := (g.addInputSlot 1 ("in1") 5 InputParamKind.connectionOrConstant 0).2
  let g := (g.addInputSlot 1 ("in2") 5 InputParamKind.connectionOrConstant 0).2
  let g := (g.addInputSlot 0 ("ain") 5 InputParamKind.connectionOrConstant 0).2
  let g := (g.addOutputSlot 1 ("bout") 7).2
  let g := (g.addNode ("C") ()).2
  let g := (g.addOutputSlot 2 ("cout") 5).2
  g

/-- `gBase` with output `0` connected to input `1`. -/
def gEx : Graph Unit :=
  applyOp gBase (GraphOp.connect 0 1)

/-- Is an `Except` value a success? -/
def isOkB {ε σ : Type} : Except ε σ → Bool
  | Except.ok _ => true
  | Except.error _ => false

/-- An example operation sequence: two nodes, an output slot `2` on node `0`,
an input slot `3` on node `1`, and the same connection made twice. -/
def opsW : List GraphOp :=
  [GraphOp.addNode ("A"), GraphOp.addNode ("B"),
   GraphOp.addOutputSlot 0 ("o") 5,
   GraphOp.addInputSlot 1 ("i") 5 InputParamKind.connectionOrConstant 0,
   GraphOp.connect 2 3, GraphOp.connect 2 3]

/-! ## Association-list lemmas -/

theorem lookupA_insertReplace_self {β : Type} (l : List (Nat × β)) (k : Nat) (v : β) :
    lookupA (insertReplace k v l) k = some v := by
  induction l with
  | nil => simp [insertReplace, lookupA]
  | cons hd tl ih =>
    obtain ⟨k', v'⟩ := hd
    by_cases h : k = k'
    · simp [insertReplace, h, lookupA]
    · simp [insertReplace, h, lookupA, ih]

theorem keys_insertReplace_of_lookupA {β : Type} {l : List (Nat × β)} {k : Nat}
    {v₀ : β} (v : β) (h : lookupA l k = some v₀) :
    (insertReplace k v l).map Prod.fst = l.map Prod.fst := by
  induction l with
  | nil => simp [lookupA] at h
  | cons hd tl ih =>
    obtain ⟨k', v'⟩ := hd
    by_cases hk : k = k'
    · simp [insertReplace, hk]
    · simp only [lookupA, if_neg hk] at h
      simp [insertReplace, hk, ih h]

theorem mem_keys_insertReplace {β : Type} {l : List (Nat × β)} {k a : Nat} {v : β} :
    a ∈ (insertReplace k v l).map Prod.fst ↔ a = k ∨ a ∈ l.map Prod.fst := by
  induction l with
  | nil => simp [insertReplace]
  | cons hd tl ih =>
    obtain ⟨k', v'⟩ := hd
    by_cases hk : k = k'
    · subst hk
      simp [insertReplace]
    · simp only [insertReplace, if_neg hk, List.map_cons, List.mem_cons, ih]
      tauto

theorem nodup_keys_insertReplace {β : Type} {l : List (Nat × β)} {k : Nat} {v : β}
    (h : (l.map Prod.fst).Nodup) : ((insertReplace k v l).map Prod.fst).Nodup := by
  induction l with
  | nil => simp [insertReplace]
  | cons hd tl ih =>
    obtain ⟨k', v'⟩ := hd
    simp only [List.map_cons, List.nodup_cons] at h
    obtain ⟨h1, h2⟩ := h
    by_cases hk : k = k'
    · simp only [insertReplace, if_pos hk, List.map_cons, List.nodup_cons]
      exact ⟨by rw [hk]; exact h1, h2⟩
    · simp only [insertReplace, if_neg hk, List.map_cons, List.nodup_cons]
      refine ⟨fun hmem => ?_, ih h2⟩
      rcases mem_keys_insertReplace.mp hmem with h | h
      · exact hk h.symm
      · exact h1 h

theorem lookupA_filter_none_of_all {β : Type} {p : Nat × β → Bool}
    {l : List (Nat × β)} {k : Nat}
    (h : ∀ x ∈ l, x.1 = k → p x = false) : lookupA (l.filter p) k = none := by
  induction l with
  | nil => rfl
  | cons hd tl ih =>
    obtain ⟨k', v'⟩ := hd
    have htl : ∀ x ∈ tl, x.1 = k → p x = false := fun x hx => h x (List.mem_cons_of_mem _ hx)
    by_cases hp : p (k', v') = true
    · have hk : ¬(k = k') := by
        intro hk
        have := h (k', v') (List.mem_cons_self _ _) hk.symm
        rw [this] at hp
        exact Bool.false_ne_true hp
      simp only [List.filter_cons, hp, if_true, lookupA, if_neg hk]
      exact ih htl
    · simp only [List.filter_cons, Bool.not_eq_true] at hp ⊢
      rw [hp]
      simpa using ih htl

theorem lookupA_removeKey_self {β : Type} (l : List (Nat × β)) (k : Nat) :
    lookupA (removeKey k l) k = none := by
  refine lookupA_filter_none_of_all (fun x _ hx => ?_)
  simp [hx]

theorem mem_of_lookupA {β : Type} {l : List (Nat × β)} {k : Nat} {v : β}
    (h : lookupA l k = some v) : (k, v) ∈ l := by
  induction l with
  | nil => simp [lookupA] at h
  | cons hd tl ih =>
    obtain ⟨k', v'⟩ := hd
    by_cases hk : k = k'
    · simp only [lookupA, if_pos hk, Option.some.injEq] at h
      subst hk
      subst h
      exact List.mem_cons_self _ _
    · simp only [lookupA, if_neg hk] at h
      exact List.mem_cons_of_mem _ (ih h)

theorem lookupA_of_nodup_mem {β : Type} {l : List (Nat × β)} {k : Nat} {v : β}
    (hnd : (l.map Prod.fst).Nodup) (h : (k, v) ∈ l) : lookupA l k = some v := by
  induction l with
  | nil => simp at h
  | cons hd tl ih =>
    obtain ⟨k', v'⟩ := hd
    simp only [List.map_cons, List.nodup_cons] at hnd
    rcases List.mem_cons.mp h with hmem | hmem
    · rw [Prod.mk.injEq] at hmem
      obtain ⟨hk, hv⟩ := hmem
      simp [lookupA, hk.symm, hv.symm]
    · have hk : ¬(k = k') := by
        intro hk
        rw [hk] at hmem
        exact hnd.1 (List.mem_map_of_mem Prod.fst hmem)
      simp only [lookupA, if_neg hk]
      exact ih hnd.2 hmem

theorem value_eq_of_lookupA_nodup {β : Type} {l : List (Nat × β)} {k : Nat}
    {v v' : β} (hnd : (l.map Prod.fst).Nodup) (h : lookupA l k = some v)
    (h' : (k, v') ∈ l) : v' = v := by
  have hlk := lookupA_of_nodup_mem hnd h'
  rw [hlk] at h
  exact Option.some.inj h

theorem nodup_keys_filter {β : Type} {p : Nat × β → Bool} {l : List (Nat × β)}
    (h : (l.map Prod.fst).Nodup) : ((l.filter p).map Prod.fst).Nodup :=
  List.Nodup.sublist (List.Sublist.map Prod.fst (List.filter_sublist l)) h

theorem length_le_one_of_nodup_of_all_eq {m : List Nat} {i : Nat}
    (hnd : m.Nodup) (h : ∀ x ∈ m, x = i) : m.length ≤ 1 := by
  match m with
  | [] => simp
  | [a] => simp
  | a :: b :: t =>
    exfalso
    have ha := h a (by simp)
    have hb := h b (by simp)
    simp only [List.nodup_cons, List.mem_cons] at hnd
    exact hnd.1 (Or.inl (ha.trans hb.symm))

/-! ## Lemmas about `Graph.connect` and operation sequences -/

theorem connect_ok_connections {α : Type} {g g' : Graph α} {o i : SlotId}
    (h : g.connect o i = Except.ok g') :
    g'.connections = insertReplace i o g.connections := by
  unfold Graph.connect at h
  split at h
  · exact absurd h (by simp)
  · split at h
    · exact absurd h (by simp)
    · split at h
      · exact absurd h (by simp)
      · split at h
        · simp only [Except.ok.injEq] at h
          subst h
          rfl
        · exact absurd h (by simp)

theorem connect_ok_of_valid {α : Type} {g : Graph α} {o i : SlotId}
    {op : OutputParam} {ip : InputParam}
    (ho : lookupA g.outputs o = some op) (hi : lookupA g.inputs i = some ip)
    (ht : g.anyParamType o = g.anyParamType i)
    (hn : g.slotNode o ≠ g.slotNode i) :
    g.connect o i =
      Except.ok { g with connections := insertReplace i o g.connections } := by
  have hro : g.resolves o = true := by
    simp [Graph.resolves, ho]
  have hri : g.resolves i = true := by
    simp [Graph.resolves, hi]
  unfold Graph.connect
  rw [if_neg (by simp [hro, hri]), if_neg (by simp [ht]), if_neg hn, ho, hi]

theorem connect_graph_fields {α : Type} {g g' : Graph α} {o i : SlotId}
    (h : g.connect o i = Except.ok g') :
    g'.nodes = g.nodes ∧ g'.inputs = g.inputs ∧ g'.outputs = g.outputs := by
  unfold Graph.connect at h
  split at h
  · exact absurd h (by simp)
  · split at h
    · exact absurd h (by simp)
    · split at h
      · exact absurd h (by simp)
      · split at h
        · simp only [Except.ok.injEq] at h
          subst h
          exact ⟨rfl, rfl, rfl⟩
        · exact absurd h (by simp)

theorem connect_not_ok_of_type_mismatch {α : Type} {g : Graph α} {o i : SlotId}
    (ht : g.anyParamType o ≠ g.anyParamType i) :
    ∀ g' : Graph α, g.connect o i ≠ Except.ok g' := by
  intro g' hc
  unfold Graph.connect at hc
  split at hc
  · exact absurd hc (by simp)
  · exact absurd hc (by simp)

theorem connect_not_ok_of_same_node {α : Type} {g : Graph α} {o i : SlotId}
    {nd : NodeId} (ho : g.slotNode o = some nd) (hi : g.slotNode i = some nd) :
    ∀ g' : Graph α, g.connect o i ≠ Except.ok g' := by
  intro g' hc
  unfold Graph.connect at hc
  split at hc
  · exact absurd hc (by simp)
  · split at hc
    · exact absurd hc (by simp)
    · rw [if_pos (ho.trans hi.symm)] at hc
      exact absurd hc (by simp)

theorem nodup_keys_applyOp (g : Graph Unit) (op : GraphOp)
    (h : (g.connections.map Prod.fst).Nodup) :
    ((applyOp g op).connections.map Prod.fst).Nodup := by
  cases op with
  | addNode label => exact h
  | addInputSlot node name typ kind value =>
    simp only [applyOp, Graph.addInputSlot]
    cases lookupA g.nodes node <;> exact h
  | addOutputSlot node name typ =>
    simp only [applyOp, Graph.addOutputSlot]
    cases lookupA g.nodes node <;> exact h
  | connect o i =>
    simp only [applyOp]
    cases hc : g.connect o i with
    | ok g' =>
      rw [connect_ok_connections hc]
      exact nodup_keys_insertReplace h
    | error e => exact h
  | disconnect input =>
    exact nodup_keys_filter h
  | removeNode node =>
    simp only [applyOp, Graph.removeNode]
    split
    · exact nodup_keys_filter h
    · exact h

theorem nodup_keys_applyOps (ops : List GraphOp) :
    ∀ g : Graph Unit, (g.connections.map Prod.fst).Nodup →
      ((applyOps g ops).connections.map Prod.fst).Nodup := by
  induction ops with
  | nil => intro g h; exact h
  | cons op rest ih =>
    intro g h
    exact ih (applyOp g op) (nodup_keys_applyOp g op h)

/-! ## Claim theorems -/

/-- C3: a connection between two slots of the same node is never created.
During a connection-drag whose origin slot belongs to this very node,
`draw_port` emits no response at all — in particular no `ConnectEventEnded` —
regardless of declared types, capture radius, or release state
(the `origin_node != node_id` guard at editor.rs line 510); and `connect` on
two slots of the same node never succeeds. -/
theorem c3_same_node_never_connects :
    (∀ (g : Graph Unit) (n : NodeId) (param origin_param : SlotId)
        (pt : DataType) (icc ce dsr ar : Bool),
      g.anyParamType param = some pt →
      drawPort g n param (some (n, origin_param)) icc ce dsr ar = some []) ∧
    (∀ (g : Graph Unit) (o i : SlotId) (nd : NodeId),
      g.slotNode o = some nd → g.slotNode i = some nd →
      isOkB (g.connect o i) = false) := by
  constructor
  · intro g n param origin_param pt icc ce dsr ar hpt
    simp [drawPort, hpt]
  · intro g o i nd ho hi
    cases hc : g.connect o i with
    | ok g' => exact absurd hc (connect_not_ok_of_same_node ho hi g')
    | error e => rfl

/-- C3 witness: in `gEx`, output `0` and input `3` both belong to node `0`;
a drag from slot `0` released over slot `3` (same node, equal types, in
radius, pointer released) emits nothing, and `connect 0 3` is declined. -/
theorem c3_same_node_never_connects_witness :
    gEx.anyParamType 3 = some 5 ∧
    drawPort gEx 0 3 (some (0, 0)) false true true true = some [] ∧
    gEx.slotNode 0 = some 0 ∧ gEx.slotNode 3 = some 0 ∧
    isOkB (gEx.connect 0 3) = false :=
  ⟨by decide,
   c3_same_node_never_connects.1 gEx 0 3 0 5 false true true true (by decide),
   by decide, by decide,
   c3_same_node_never_connects.2 gEx 0 3 0 (by decide) (by decide)⟩

/-- Helper: during an active drag the port sense is `Sense::hover()`, so
`draw_port` never emits `ConnectEventStarted` or `DisconnectEvent`. -/
theorem drawPort_dragging_only_ended :
    ∀ (g : Graph Unit) (n : NodeId) (param : SlotId) (od : NodeId × SlotId)
      (icc ce dsr ar : Bool) (rs : List NodeResponse),
      drawPort g n param (some od) icc ce dsr ar = some rs →
      ∀ r ∈ rs, r.isConnectStarted = false ∧ r.isDisconnect = false := by
  intro g n param od icc ce dsr ar rs h
  obtain ⟨onode, oparam⟩ := od
  cases hpt : g.anyParamType param with
  | none => simp [drawPort, hpt] at h
  | some pt =>
    by_cases hon : onode ≠ n
    · cases hot : g.anyParamType oparam with
      | none => simp [drawPort, hpt, hon, hot] at h
      | some ot =>
        by_cases hcond : ot = pt ∧ ce = true ∧ ar = true
        · simp [drawPort, hpt, hon, hot, hcond] at h
          subst h
          intro r hr
          simp only [List.mem_singleton] at hr
          subst hr
          exact ⟨rfl, rfl⟩
        · simp [drawPort, hpt, hon, hot, hcond] at h
          subst h
          intro r hr
          exact absurd hr (List.not_mem_nil r)
    · simp [drawPort, hpt, hon] at h
      subst h
      intro r hr
      exact absurd hr (List.not_mem_nil r)

/-- C9: at most one connection-drag is active. While `ongoing_drag` is `Some`,
every port is allocated with `Sense::hover()` (editor.rs lines 471-475), so no
port recognises a new drag-start: whatever `draw_port` emits during an active
drag, it is never a `ConnectEventStarted` and never a `DisconnectEvent` — a
drag-start arriving while already dragging is ignored. -/
theorem c9_no_drag_start_while_dragging :
    ∀ (g : Graph Unit) (n : NodeId) (param : SlotId) (od : NodeId × SlotId)
      (icc ce dsr ar : Bool) (rs : List NodeResponse),
      drawPort g n param (some od) icc ce dsr ar = some rs →
      ∀ r ∈ rs, r.isConnectStarted = false ∧ r.isDisconnect = false :=
  drawPort_dragging_only_ended

/-- C9 witness: during a drag from `(0, 0)` in `gEx`, a drag-start flag on the
connected input `1` of node `1` produces only a `ConnectEventEnded` — which is
neither a `ConnectEventStarted` nor a `DisconnectEvent`. -/
theorem c9_no_drag_start_while_dragging_witness :
    drawPort gEx 1 1 (some (0, 0)) true true true true =
      some [NodeResponse.connectEventEnded 0 1] ∧
    (NodeResponse.connectEventEnded 0 1).isConnectStarted = false ∧
    (NodeResponse.connectEventEnded 0 1).isDisconnect = false :=
  ⟨by decide,
   c9_no_drag_start_while_dragging gEx 1 1 (0, 0) true true true true
     [NodeResponse.connectEventEnded 0 1] (by decide)
     (NodeResponse.connectEventEnded 0 1) (by decide)⟩

/-- C10: a drag started on an output slot emits exactly `ConnectEventStarted`
and never `DisconnectEvent` — the output-port call site passes
`is_connected_input = false` unconditionally (editor.rs line 311), so existing
fan-out from that output is never detached; and every `DisconnectEvent` that
an input port emits names an input slot that is connected at that moment,
paired with that connection's output endpoint (editor.rs lines 495-503). -/
theorem c10_output_drag_and_disconnect_pairing :
    (∀ (g : Graph Unit) (n : NodeId) (param : SlotId) (pt : DataType)
        (ce ar : Bool),
      g.anyParamType param = some pt →
      drawOutputPort g n param none ce true ar =
        some [NodeResponse.connectEventStarted n param]) ∧
    (∀ (g : Graph Unit) (n : NodeId) (param : SlotId)
        (od : Option (NodeId × SlotId)) (ce dsr ar : Bool)
        (rs : List NodeResponse) (o i : SlotId),
      drawInputPort g n param od ce dsr ar = some rs →
      NodeResponse.disconnectEvent o i ∈ rs →
      g.connection i = some o) := by
  constructor
  · intro g n param pt ce ar hpt
    simp [drawOutputPort, drawPort, hpt]
  · intro g n param od ce dsr ar rs o i h hmem
    cases hpt : g.anyParamType param with
    | none => simp [drawInputPort, drawPort, hpt] at h
    | some pt =>
      cases od with
      | none =>
        by_cases hdsr : dsr = true
        · cases hco : g.connection param with
          | none =>
            simp [drawInputPort, drawPort, hpt, hdsr, hco] at h
            subst h
            simp at hmem
          | some out =>
            simp [drawInputPort, drawPort, hpt, hdsr, hco] at h
            subst h
            simp only [List.mem_singleton] at hmem
            rw [NodeResponse.disconnectEvent.injEq] at hmem
            rw [hmem.2.symm, hmem.1.symm] at hco
            exact hco
        · simp [drawInputPort, drawPort, hpt, hdsr] at h
          subst h
          simp at hmem
      | some p =>
        have hall := drawPort_dragging_only_ended g n param p
          ((g.connection param).isSome) ce dsr ar rs h
        have hdis := (hall (NodeResponse.disconnectEvent o i) hmem).2
        exact absurd hdis (by simp [NodeResponse.isDisconnect])

/-- C10 witness: dragging from output `0` of node `0` in `gEx` (which has an
existing connection `1 ↦ 0` fanning out of it) emits exactly
`ConnectEventStarted`; and the `DisconnectEvent { output := 0, input := 1 }`
emitted by dragging off input `1` names the connection `gEx.connection 1`. -/
theorem c10_output_drag_and_disconnect_pairing_witness :
    gEx.anyParamType 0 = some 5 ∧
    drawOutputPort gEx 0 0 none true true true =
      some [NodeResponse.connectEventStarted 0 0] ∧
    drawInputPort gEx 1 1 none true true true =
      some [NodeResponse.disconnectEvent 0 1] ∧
    gEx.connection 1 = some 0 :=
  ⟨by decide,
   c10_output_drag_and_disconnect_pairing.1 gEx 0 0 5 true true (by decide),
   by decide,
   c10_output_drag_and_disconnect_pairing.2 gEx 1 1 none true true true
     [NodeResponse.disconnectEvent 0 1] 0 1 (by decide) (by decide)⟩

/-- C4: an attempted connection between slots whose declared types differ is
declined: during a drag from `origin_param`, a release over `param` of a
different declared type makes `draw_port` emit nothing (editor.rs line 512);
and applying a `ConnectEventEnded` whose endpoint types differ leaves the
graph — in particular the connection table — unchanged, because `connect`
returns `TypeMismatch`. -/
theorem c4_type_mismatch_rejected :
    (∀ (g : Graph Unit) (n onode : NodeId) (param oparam : SlotId)
        (pt ot : DataType) (icc ce dsr ar : Bool),
      g.anyParamType param = some pt →
      g.anyParamType oparam = some ot →
      ot ≠ pt →
      drawPort g n param (some (onode, oparam)) icc ce dsr ar = some []) ∧
    (∀ (e : GraphEditor) (o i : SlotId),
      e.graph.anyParamType o ≠ e.graph.anyParamType i →
      (e.applyResponse (NodeResponse.connectEventEnded o i)).graph = e.graph) := by
  constructor
  · intro g n onode param oparam pt ot icc ce dsr ar hpt hot hne
    by_cases hon : onode ≠ n
    · simp [drawPort, hpt, hot, hon, hne]
    · simp [drawPort, hpt, hon]
  · intro e o i ht
    simp only [GraphEditor.applyResponse]
    cases hc : e.graph.connect o i with
    | ok g' => exact absurd hc (connect_not_ok_of_type_mismatch ht g')
    | error err => rfl

/-- C4 witness: output `4` of node `1` in `gEx` has type `7`, input `3` of
node `0` has type `5`; releasing a drag from `4` over `3` emits nothing, and
applying `ConnectEventEnded { output := 4, input := 3 }` leaves the graph
unchanged. -/
theorem c4_type_mismatch_rejected_witness :
    gEx.anyParamType 3 = some 5 ∧ gEx.anyParamType 4 = some 7 ∧
    drawPort gEx 0 3 (some (1, 4)) false true true true = some [] ∧
    ((GraphEditor.mk gEx [] none [] none []).applyResponse
      (NodeResponse.connectEventEnded 4 3)).graph = gEx :=
  ⟨by decide, by decide,
   c4_type_mismatch_rejected.1 gEx 0 1 3 4 5 7 false true true true
     (by decide) (by decide) (by decide),
   c4_type_mismatch_rejected.2 (GraphEditor.mk gEx [] none [] none []) 4 3
     (by decide)⟩

/-- C5: a drag-start on a connected input detaches it instead of starting a
drag: with no drag in progress, a drag-start on input `i` wired to output `o`
makes `draw_port` emit exactly one `DisconnectEvent { output := o, input := i }`
and nothing else — in particular no `ConnectEventStarted` (editor.rs lines
494-503); applying that response removes the connection
(`connection_of(i) = None` immediately after) and leaves the drag state Idle
(`connection_in_progress` stays `None`). -/
theorem c5_drag_from_connected_input_detaches :
    ∀ (g : Graph Unit) (n : NodeId) (i o : SlotId) (pt : DataType)
      (ce ar : Bool) (e : GraphEditor),
      g.anyParamType i = some pt →
      g.connection i = some o →
      e.graph = g → e.connection_in_progress = none →
      drawInputPort g n i none ce true ar =
        some [NodeResponse.disconnectEvent o i] ∧
      (e.applyResponses [NodeResponse.disconnectEvent o i]).graph.connection i =
        none ∧
      (e.applyResponses [NodeResponse.disconnectEvent o i]).connection_in_progress =
        none := by
  intro g n i o pt ce ar e hpt hco hg hcip
  refine ⟨?_, ?_, ?_⟩
  · simp [drawInputPort, drawPort, hpt, hco]
  · simp only [GraphEditor.applyResponses, List.foldl_cons, List.foldl_nil,
      GraphEditor.applyResponse, Graph.disconnect, Graph.connection]
    exact lookupA_removeKey_self _ i
  · simp only [GraphEditor.applyResponses, List.foldl_cons, List.foldl_nil,
      GraphEditor.applyResponse]
    exact hcip

/-- C5 witness: in `gEx`, input `1` is wired to output `0`; a drag-start on it
from the Idle state emits exactly `DisconnectEvent { output := 0, input := 1 }`,
after which `connection_of(1)` is `None` and no drag is in progress. -/
theorem c5_drag_from_connected_input_detaches_witness :
    gEx.anyParamType 1 = some 5 ∧ gEx.connection 1 = some 0 ∧
    drawInputPort gEx 1 1 none true true true =
      some [NodeResponse.disconnectEvent 0 1] ∧
    (((GraphEditor.mk gEx [] none [] none []).applyResponses
      [NodeResponse.disconnectEvent 0 1]).graph.connection 1 = none) ∧
    (((GraphEditor.mk gEx [] none [] none []).applyResponses
      [NodeResponse.disconnectEvent 0 1]).connection_in_progress = none) :=
  ⟨by decide, by decide,
   (c5_drag_from_connected_input_detaches gEx 1 1 0 5 true true
     (GraphEditor.mk gEx [] none [] none []) (by decide) (by decide) rfl rfl).1,
   (c5_drag_from_connected_input_detaches gEx 1 1 0 5 true true
     (GraphEditor.mk gEx [] none [] none []) (by decide) (by decide) rfl rfl).2.1,
   (c5_drag_from_connected_input_detaches gEx 1 1 0 5 true true
     (GraphEditor.mk gEx [] none [] none []) (by decide) (by decide) rfl rfl).2.2⟩

/-- C7: an abandoned drag mutates nothing. If a drag from `origin_param` is in
progress and the pointer is released while this port is not a compatible
target (same node, or differing declared types, or outside the capture
radius), `draw_port` emits no response; an empty response list leaves the
editor untouched, and the release returns `connection_in_progress` to `None`
with the graph unchanged. -/
theorem c7_release_without_target_abandons :
    ∀ (g : Graph Unit) (n onode : NodeId) (param oparam : SlotId)
      (pt ot : DataType) (icc ce dsr : Bool) (e : GraphEditor),
      g.anyParamType param = some pt →
      g.anyParamType oparam = some ot →
      (onode = n ∨ ot ≠ pt ∨ ce = false) →
      drawPort g n param (some (onode, oparam)) icc ce dsr true = some [] ∧
      e.applyResponses [] = e ∧
      (e.frameEndRelease true).connection_in_progress = none ∧
      (e.frameEndRelease true).graph = e.graph := by
  intro g n onode param oparam pt ot icc ce dsr e hpt hot hno
  refine ⟨?_, rfl, ?_, ?_⟩
  · rcases hno with hno | hno | hno
    · simp [drawPort, hpt, hno]
    · by_cases hon : onode ≠ n
      · simp [drawPort, hpt, hot, hon, hno]
      · simp [drawPort, hpt, hon]
    · by_cases hon : onode ≠ n
      · simp [drawPort, hpt, hot, hon, hno]
      · simp [drawPort, hpt, hon]
  · simp [GraphEditor.frameEndRelease]
  · simp [GraphEditor.frameEndRelease]

/-- C7 witness: during a drag from output `4` (type `7`) of node `1` in `gEx`,
releasing at input `3` (type `5`) of node `0` — types differ — emits nothing,
leaves the editor unchanged, and the release resets `connection_in_progress`
to `None` with the graph intact. -/
theorem c7_release_without_target_abandons_witness :
    gEx.anyParamType 3 = some 5 ∧ gEx.anyParamType 4 = some 7 ∧
    drawPort gEx 0 3 (some (1, 4)) false true false true = some [] ∧
    ((GraphEditor.mk gEx [] (some (1, 4)) [] none []).applyResponses [] =
      GraphEditor.mk gEx [] (some (1, 4)) [] none []) ∧
    ((GraphEditor.mk gEx [] (some (1, 4)) [] none []).frameEndRelease
      true).connection_in_progress = none ∧
    ((GraphEditor.mk gEx [] (some (1, 4)) [] none []).frameEndRelease
      true).graph = gEx :=
  ⟨by decide, by decide,
   (c7_release_without_target_abandons gEx 0 1 3 4 5 7 false true false
     (GraphEditor.mk gEx [] (some (1, 4)) [] none []) (by decide) (by decide)
     (Or.inr (Or.inl (by decide)))).1,
   (c7_release_without_target_abandons gEx 0 1 3 4 5 7 false true false
     (GraphEditor.mk gEx [] (some (1, 4)) [] none []) (by decide) (by decide)
     (Or.inr (Or.inl (by decide)))).2.1,
   (c7_release_without_target_abandons gEx 0 1 3 4 5 7 false true false
     (GraphEditor.mk gEx [] (some (1, 4)) [] none []) (by decide) (by decide)
     (Or.inr (Or.inl (by decide)))).2.2.1,
   (c7_release_without_target_abandons gEx 0 1 3 4 5 7 false true false
     (GraphEditor.mk gEx [] (some (1, 4)) [] none []) (by decide) (by decide)
     (Or.inr (Or.inl (by decide)))).2.2.2⟩

/-- C8: click-to-select is the lowest-priority interpretation. When the
response list accumulated before the selection check is empty and the node
was clicked with the primary button, `NodeWidget::show` emits exactly
`SelectNode(n)` immediately followed by `RaiseNode(n)` (editor.rs lines
410-417); when any response was already produced for the node this frame, the
selection check appends nothing — the result is exactly the responses already
produced. -/
theorem c8_click_selects_as_fallback :
    ∀ (n : NodeId) (content : List NodeResponse) (canDelete closeClicked : Bool)
      (d : Int × Int) (clicked : Bool),
      (preClickResponses n content canDelete closeClicked d = [] →
        clicked = true →
        showInteraction n content canDelete closeClicked d clicked =
          [NodeResponse.selectNode n, NodeResponse.raiseNode n]) ∧
      (preClickResponses n content canDelete closeClicked d ≠ [] →
        showInteraction n content canDelete closeClicked d clicked =
          preClickResponses n content canDelete closeClicked d) := by
  intro n content canDelete closeClicked d clicked
  constructor
  · intro hpre hclk
    simp [showInteraction, hpre, hclk]
  · intro hpre
    have hie : (preClickResponses n content canDelete closeClicked d).isEmpty =
        false := by
      cases hpc : preClickResponses n content canDelete closeClicked d with
      | nil => exact absurd hpc hpre
      | cons a t => rfl
    simp [showInteraction, hie]

/-- C8 witness: a bare primary click on node `7` with no prior responses
yields exactly `[SelectNode 7, RaiseNode 7]`; with a user response already
present, the click appends nothing. -/
theorem c8_click_selects_as_fallback_witness :
    preClickResponses 7 [] false false (0, 0) = [] ∧
    showInteraction 7 [] false false (0, 0) true =
      [NodeResponse.selectNode 7, NodeResponse.raiseNode 7] ∧
    preClickResponses 7 [NodeResponse.user 0] false false (0, 0) ≠ [] ∧
    showInteraction 7 [NodeResponse.user 0] false false (0, 0) true =
      preClickResponses 7 [NodeResponse.user 0] false false (0, 0) :=
  ⟨by decide,
   (c8_click_selects_as_fallback 7 [] false false (0, 0) true).1 (by decide) rfl,
   by decide,
   (c8_click_selects_as_fallback 7 [NodeResponse.user 0] false false (0, 0)
     true).2 (by decide)⟩

/-- C1: an input slot has at most one incoming connection at all times. After
any sequence of graph operations starting from the empty graph, the connection
table holds at most one entry for any input slot (the table is keyed by input
and every operation preserves key distinctness); and a valid `connect` onto an
already-connected input succeeds and replaces the prior connection — the new
output is recorded and the table's key list is unchanged, so no second entry
appears. -/
theorem c1_input_has_at_most_one_connection :
    (∀ (ops : List GraphOp) (i : SlotId),
      ((applyOps Graph.new ops).connections.filter
        (fun c => decide (c.1 = i))).length ≤ 1) ∧
    (∀ (g : Graph Unit) (o i : SlotId) (op : OutputParam) (ip : InputParam)
        (o₀ : SlotId),
      lookupA g.outputs o = some op → lookupA g.inputs i = some ip →
      g.anyParamType o = g.anyParamType i → g.slotNode o ≠ g.slotNode i →
      g.connection i = some o₀ →
      isOkB (g.connect o i) = true ∧
      (applyOp g (GraphOp.connect o i)).connection i = some o ∧
      (applyOp g (GraphOp.connect o i)).connections.map Prod.fst =
        g.connections.map Prod.fst) := by
  constructor
  · intro ops i
    have hnd : ((applyOps Graph.new ops).connections.map Prod.fst).Nodup :=
      nodup_keys_applyOps ops Graph.new (by simp [Graph.new])
    have hsub :
        (((applyOps Graph.new ops).connections.filter
          (fun c => decide (c.1 = i))).map Prod.fst).Nodup :=
      nodup_keys_filter hnd
    have hall : ∀ x ∈ ((applyOps Graph.new ops).connections.filter
        (fun c => decide (c.1 = i))).map Prod.fst, x = i := by
      intro x hx
      obtain ⟨c, hc, hfst⟩ := List.mem_map.mp hx
      have hpc := List.of_mem_filter hc
      rw [← hfst]
      exact of_decide_eq_true hpc
    have hlen := length_le_one_of_nodup_of_all_eq hsub hall
    simpa using hlen
  · intro g o i op ip o₀ ho hi ht hn hprev
    have hok := connect_ok_of_valid ho hi ht hn
    simp only [Graph.connection] at hprev
    refine ⟨by simp [isOkB, hok], ?_, ?_⟩
    · simp only [applyOp, hok, Graph.connection]
      exact lookupA_insertReplace_self _ _ _
    · simp only [applyOp, hok]
      exact keys_insertReplace_of_lookupA o hprev

/-- C1 witness: after `opsW` (which connects `2 → 3` twice) input `3` has at
most one entry; and in `gEx` (input `1` already wired to output `0`)
connecting output `5` to input `1` succeeds, afterwards `connection_of(1)`
is `5`, and the table's key list is unchanged. -/
theorem c1_input_has_at_most_one_connection_witness :
    ((applyOps Graph.new opsW).connections.filter
      (fun c => decide (c.1 = 3))).length ≤ 1 ∧
    lookupA gEx.outputs 5 = some (OutputParam.mk 5 2 5) ∧
    lookupA gEx.inputs 1 =
      some (InputParam.mk 1 5 0 1 InputParamKind.connectionOrConstant) ∧
    gEx.anyParamType 5 = gEx.anyParamType 1 ∧
    gEx.slotNode 5 ≠ gEx.slotNode 1 ∧
    gEx.connection 1 = some 0 ∧
    isOkB (gEx.connect 5 1) = true ∧
    (applyOp gEx (GraphOp.connect 5 1)).connection 1 = some 5 ∧
    (applyOp gEx (GraphOp.connect 5 1)).connections.map Prod.fst =
      gEx.connections.map Prod.fst :=
  ⟨c1_input_has_at_most_one_connection.1 opsW 3,
   by decide, by decide, by decide, by decide, by decide,
   (c1_input_has_at_most_one_connection.2 gEx 5 1 (OutputParam.mk 5 2 5)
     (InputParam.mk 1 5 0 1 InputParamKind.connectionOrConstant) 0
     (by decide) (by decide) (by decide) (by decide) (by decide)).1,
   (c1_input_has_at_most_one_connection.2 gEx 5 1 (OutputParam.mk 5 2 5)
     (InputParam.mk 1 5 0 1 InputParamKind.connectionOrConstant) 0
     (by decide) (by decide) (by decide) (by decide) (by decide)).2.1,
   (c1_input_has_at_most_one_connection.2 gEx 5 1 (OutputParam.mk 5 2 5)
     (InputParam.mk 1 5 0 1 InputParamKind.connectionOrConstant) 0
     (by decide) (by decide) (by decide) (by decide) (by decide)).2.2⟩

/-- C6: `remove_node(n)` removes the node record, every slot `n` owns, and
every connection touching such a slot: afterwards the node key does not
resolve; an input slot owned by `n` no longer resolves, has no connection,
and appears in no table entry; an output slot owned by `n` no longer resolves
and appears as no entry's output endpoint; and `remove_node` on a
non-existent node is a no-op. -/
theorem c6_remove_node_cascades :
    ∀ (g : Graph Unit) (n : NodeId),
      lookupA (g.removeNode n).nodes n = none ∧
      (∀ (s : SlotId) (ip : InputParam),
        (lookupA g.nodes n).isSome = true →
        (g.inputs.map Prod.fst).Nodup →
        lookupA g.inputs s = some ip → ip.node = n →
        lookupA (g.removeNode n).inputs s = none ∧
        (g.removeNode n).connection s = none ∧
        ∀ o : SlotId, (s, o) ∉ (g.removeNode n).connections) ∧
      (∀ (s : SlotId) (op : OutputParam),
        (lookupA g.nodes n).isSome = true →
        (g.outputs.map Prod.fst).Nodup →
        lookupA g.outputs s = some op → op.node = n →
        lookupA (g.removeNode n).outputs s = none ∧
        ∀ i : SlotId, (i, s) ∉ (g.removeNode n).connections) ∧
      (lookupA g.nodes n = none → g.removeNode n = g) := by
  intro g n
  refine ⟨?_, ?_, ?_, ?_⟩
  · unfold Graph.removeNode
    split
    · exact lookupA_removeKey_self _ _
    · rename_i hne
      exact Option.not_isSome_iff_eq_none.mp hne
  · intro s ip hex hnd hlk hnode
    have hrm : g.removeNode n =
        { g with
          nodes := removeKey n g.nodes
          inputs := g.inputs.filter (fun p => decide (p.2.node ≠ n))
          outputs := g.outputs.filter (fun p => decide (p.2.node ≠ n))
          connections := g.connections.filter (fun c =>
            decide ((lookupA g.inputs c.1).map InputParam.node ≠ some n) &&
            decide ((lookupA g.outputs c.2).map OutputParam.node ≠ some n)) } := by
      unfold Graph.removeNode
      rw [if_pos hex]
    refine ⟨?_, ?_, ?_⟩
    · rw [hrm]
      refine lookupA_filter_none_of_all (fun x hx hxs => ?_)
      have hxp : (s, x.2) ∈ g.inputs := by
        rw [← hxs]
        exact hx
      have hveq := value_eq_of_lookupA_nodup hnd hlk hxp
      simp [hveq, hnode]
    · rw [hrm]
      simp only [Graph.connection]
      refine lookupA_filter_none_of_all (fun x hx hxs => ?_)
      rw [hxs, hlk]
      simp [hnode]
    · intro o hmem
      rw [hrm] at hmem
      have hq := (List.mem_filter.mp hmem).2
      rw [hlk] at hq
      simp [hnode] at hq
  · intro s op hex hnd hlk hnode
    have hrm : g.removeNode n =
        { g with
          nodes := removeKey n g.nodes
          inputs := g.inputs.filter (fun p => decide (p.2.node ≠ n))
          outputs := g.outputs.filter (fun p => decide (p.2.node ≠ n))
          connections := g.connections.filter (fun c =>
            decide ((lookupA g.inputs c.1).map InputParam.node ≠ some n) &&
            decide ((lookupA g.outputs c.2).map OutputParam.node ≠ some n)) } := by
      unfold Graph.removeNode
      rw [if_pos hex]
    refine ⟨?_, ?_⟩
    · rw [hrm]
      refine lookupA_filter_none_of_all (fun x hx hxs => ?_)
      have hxp : (s, x.2) ∈ g.outputs := by
        rw [← hxs]
        exact hx
      have hveq := value_eq_of_lookupA_nodup hnd hlk hxp
      simp [hveq, hnode]
    · intro i hmem
      rw [hrm] at hmem
      have hq := (List.mem_filter.mp hmem).2
      rw [hlk] at hq
      simp [hnode] at hq
  · intro hno
    unfold Graph.removeNode
    rw [hno]
    simp

/-- C6 witness: removing node `1` from `gEx` removes its record, its input
slot `1` (with the connection `1 ↦ 0`), its output slot `4`, and
`remove_node 5` (no such node) is a no-op. -/
theorem c6_remove_node_cascades_witness :
    lookupA (gEx.removeNode 1).nodes 1 = none ∧
    (lookupA gEx.nodes 1).isSome = true ∧
    (gEx.inputs.map Prod.fst).Nodup ∧
    lookupA gEx.inputs 1 =
      some (InputParam.mk 1 5 0 1 InputParamKind.connectionOrConstant) ∧
    lookupA (gEx.removeNode 1).inputs 1 = none ∧
    (gEx.removeNode 1).connection 1 = none ∧
    (1, 0) ∉ (gEx.removeNode 1).connections ∧
    (gEx.outputs.map Prod.fst).Nodup ∧
    lookupA gEx.outputs 4 = some (OutputParam.mk 4 1 7) ∧
    lookupA (gEx.removeNode 1).outputs 4 = none ∧
    (1, 4) ∉ (gEx.removeNode 1).connections ∧
    lookupA gEx.nodes 5 = none ∧
    gEx.removeNode 5 = gEx :=
  ⟨(c6_remove_node_cascades gEx 1).1,
   by decide, by decide, by decide,
   ((c6_remove_node_cascades gEx 1).2.1 1
     (InputParam.mk 1 5 0 1 InputParamKind.connectionOrConstant)
     (by decide) (by decide) (by decide) (by decide)).1,
   ((c6_remove_node_cascades gEx 1).2.1 1
     (InputParam.mk 1 5 0 1 InputParamKind.connectionOrConstant)
     (by decide) (by decide) (by decide) (by decide)).2.1,
   ((c6_remove_node_cascades gEx 1).2.1 1
     (InputParam.mk 1 5 0 1 InputParamKind.connectionOrConstant)
     (by decide) (by decide) (by decide) (by decide)).2.2 0,
   by decide, by decide,
   ((c6_remove_node_cascades gEx 1).2.2.1 4 (OutputParam.mk 4 1 7)
     (by decide) (by decide) (by decide) (by decide)).1,
   ((c6_remove_node_cascades gEx 1).2.2.1 4 (OutputParam.mk 4 1 7)
     (by decide) (by decide) (by decide) (by decide)).2 1,
   by decide,
   (c6_remove_node_cascades gEx 5).2.2.2 (by decide)⟩

/-- C2: the resolution `match (param_id, origin_param)` at editor.rs lines
516-521 binds plain variables, so its first arm is irrefutable: the `_` arm
meant to "Ignore in-in or out-out connections" is unreachable, and the event
fields are assigned by drag direction (`input := param_id`,
`output := origin_param`), not by slot role. Evaluated on `gEx`: slots `2`
and `3` are both input slots on different nodes of equal type, yet a drag
from `3` released over `2` emits
`ConnectEventEnded { output := 3, input := 2 }`; and a drag from input `2`
released over output `0` emits
`ConnectEventEnded { output := 2, input := 0 }` — the input slot in the
`output` field and the output slot in the `input` field. -/
theorem c2_resolution_match_is_irrefutable :
    (lookupA gEx.inputs 2).isSome = true ∧
    (lookupA gEx.inputs 3).isSome = true ∧
    drawInputPort gEx 1 2 (some (0, 3)) true false true =
      some [NodeResponse.connectEventEnded 3 2] ∧
    (lookupA gEx.outputs 0).isSome = true ∧
    drawOutputPort gEx 0 0 (some (1, 2)) true false true =
      some [NodeResponse.connectEventEnded 2 0] := by
  decide

end Hippo
